import Mathlib

/-!
Shallow embedding of the hawkBit device-side update agent
(`src/subsys/mgmt/hawkbit/hawkbit.c`) and proofs about its behaviour.

Pure helpers of the C file are translated to Lean functions over
`List Char` (C strings) and mathematical integers with explicit
two-complement / modulo-2^32 wrapping where the C types make overflow
observable.  The stateful orchestrator `hawkbit_probe` is modelled as a
pure function from the mutable state that survives a cycle (`Globals`)
and an environment of external results (`Env`: transport, bootloader,
NVS, server documents) to a `ProbeResult` that carries the outcome, the
surviving state, and a trace of the observable effects (requests sent,
flash appends, bootloader arming, NVS writes).
-/

set_option maxRecDepth 8000

namespace Hawkbit

/-! ## C string and integer primitives -/

/-- Characters treated as whitespace by `strtol`. -/
def isSpaceChar (c : Char) : Bool :=
  c == ' ' || c == '\t' || c == '\n' || c == '\r'

/-- Numeric value of a decimal digit character. -/
def digitVal (c : Char) : Nat := c.toNat - 48

/-- Value of a list of decimal digit characters, most significant first. -/
def natOfDigits (l : List Char) : Nat :=
  l.foldl (fun a c => 10 * a + digitVal c) 0

/-- C `strtol(s, _, 10)`: skip whitespace, optional sign, then the longest
prefix of decimal digits; 0 when there are no digits.  LONG_MAX clamping is
not modelled (every input exercised in this development stays far below it). -/
def strtol (s : List Char) : Int :=
  let s1 := s.dropWhile (fun c => isSpaceChar c)
  match s1 with
  | '-' :: r => - ((natOfDigits (r.takeWhile Char.isDigit) : Int))
  | '+' :: r => ((natOfDigits (r.takeWhile Char.isDigit) : Int))
  | r => ((natOfDigits (r.takeWhile Char.isDigit) : Int))

/-- Does the second list start with the first one?  (C `strncmp(hay, needle, n) == 0`
shape used to implement `strstr`.) -/
def hasLead : List Char → List Char → Bool
  | [], _ => true
  | _ :: _, [] => false
  | a :: as, b :: bs => a == b && hasLead as bs

/-- C `strstr haystack needle`: the first suffix of the haystack that starts
with the needle, `none` when the needle does not occur. -/
def strstr (needle : List Char) : List Char → Option (List Char)
  | [] => if hasLead needle [] then some [] else none
  | c :: t => if hasLead needle (c :: t) then some (c :: t) else strstr needle t

/-- Helper for `strtokSlash`: split at every `'/'`. -/
def splitSlashAux : List Char → List Char → List (List Char)
  | [], acc => [acc.reverse]
  | '/' :: t, acc => acc.reverse :: splitSlashAux t []
  | c :: t, acc => splitSlashAux t (c :: acc)

/-- Successive `strtok(s, "/")` results: the maximal nonempty runs of
characters other than `'/'`. -/
def strtokSlash (s : List Char) : List (List Char) :=
  (splitSlashAux s []).filter (fun t => ¬ t.isEmpty)

/-- C `strcmp`, restricted to what the code observes (the sign). -/
def strcmp : List Char → List Char → Int
  | [], [] => 0
  | [], _ :: _ => -1
  | _ :: _, [] => 1
  | a :: as, b :: bs => if a = b then strcmp as bs else ((a.toNat : Int)) - ((b.toNat : Int))

def UINT32_MOD : Nat := 4294967296

/-- Value stored by an assignment of the integer `z` to a C `uint32_t`. -/
def toUInt32n (z : Int) : Nat := (z % ((4294967296 : Int))).toNat

/-- Value stored by an assignment of the integer `z` to a C `int32_t`
(two-complement wrap). -/
def toInt32 (z : Int) : Int := (z + 2147483648) % 4294967296 - 2147483648

/-! ## Constants from hawkbit.c -/

def CANCEL_BASE_SIZE : Nat := 50
def DOWNLOAD_HTTP_SIZE : Nat := 200
def DEPLOYMENT_BASE_SIZE : Nat := 50
def RESPONSE_BUFFER_SIZE : Nat := 1100
def MSEC_PER_SEC : Nat := 1000

/-- Modelled from the spec: `HAWKBIT_SLEEP_LENGTH` is defined in
`hawkbit_priv.h`, which is not under `src/`; the spec fixes the sleep string
to exactly 8 characters (`HH:MM:SS`). -/
def HAWKBIT_SLEEP_LENGTH : Nat := 8

/-! ## Enumerations -/

/-- Modelled from the spec: `enum hawkbit_response` is declared in the
repository header `mgmt/hawkbit.h`, which is absent from `src/`; the
constructors are the OutcomeCode set of the spec.  `hawkbit_probe`
zero-initializes `code_status` with `memset`, so the initial status is the
enum value 0.  The spec scenarios S1 (outcome NoUpdate) and S3 (outcome
UpdateInstalled) are reachable only if that zero value differs from
`HAWKBIT_METADATA_ERROR` (checked at hawkbit.c lines 1067 and 1148) and from
`HAWKBIT_DOWNLOAD_ERROR` (checked at line 1207); the upstream header lists
`HAWKBIT_NETWORKING_ERROR` first, which satisfies both constraints. -/
inductive HawkbitResponse
  | networkingError
  | unconfirmedImage
  | metadataError
  | downloadError
  | ok
  | updateInstalled
  | noUpdate
  | cancelUpdate
deriving DecidableEq, Repr

/-- The zero-initialized value of `hb_context.code_status` (see the comment
on `HawkbitResponse`). -/
def initialCodeStatus : HawkbitResponse := .networkingError

/-- `enum hawkbit_status_fini`. -/
inductive HawkbitStatusFini
  | success
  | failure
  | none_
deriving DecidableEq, Repr

/-- `enum hawkbit_status_exec`. -/
inductive HawkbitStatusExec
  | closed
  | proceeding
  | canceled
  | scheduled
  | rejected
  | resumed
  | none_
deriving DecidableEq, Repr

/-- hawkbit_status_finished, hawkbit.c line 318 (the JSON wire word).  The C
function returns NULL for out-of-range enum values; the Lean enumeration is
total so no default case is needed. -/
def hawkbit_status_finished : HawkbitStatusFini → List Char
  | .success => ("success").toList
  | .failure => ("failure").toList
  | .none_ => ("none").toList

/-- hawkbit_status_execution, hawkbit.c line 333. -/
def hawkbit_status_execution : HawkbitStatusExec → List Char
  | .closed => ("closed").toList
  | .proceeding => ("proceeding").toList
  | .canceled => ("canceled").toList
  | .scheduled => ("scheduled").toList
  | .rejected => ("rejected").toList
  | .resumed => ("resumed").toList
  | .none_ => ("none").toList

/-- Negative errno returns used by the parsing helpers
(-EINVAL, -ENOMEM, -ENOSPC). -/
inductive CErr
  | EINVAL
  | ENOMEM
  | ENOSPC
deriving DecidableEq, Repr

/-! ## Server documents (the decoded JSON structures)

A C `char *` field that the JSON decoder may leave NULL is an
`Option (List Char)`; object arrays are lists (`num_chunks` and
`num_artifacts` are the list lengths). -/

structure CtlResLinks where
  deploymentBase : Option (List Char)
  cancelAction : Option (List Char)
  configData : Option (List Char)
deriving DecidableEq, Repr

/-- `struct hawkbit_ctl_res`: `sleep` is `config.polling.sleep`. -/
structure CtlRes where
  sleep : Option (List Char)
  links : CtlResLinks
deriving DecidableEq, Repr

/-- The all-zero control document (`memset(&hawkbit_results.base, 0, ...)`). -/
def zeroCtlRes : CtlRes := ⟨none, ⟨none, none, none⟩⟩

structure DepResHashes where
  sha1 : List Char
  md5 : List Char
  sha256 : List Char
deriving DecidableEq, Repr

structure DepResLinks where
  download_http : Option (List Char)
  md5sum_http : Option (List Char)
deriving DecidableEq, Repr

/-- `struct hawkbit_dep_res_arts`; `size` is an `int32_t` decoded from the
JSON number. -/
structure DepResArts where
  filename : List Char
  hashes : DepResHashes
  size : Int
  links : DepResLinks
deriving DecidableEq, Repr

structure DepResChunk where
  part : List Char
  version : List Char
  name : List Char
  artifacts : List DepResArts
deriving DecidableEq, Repr

structure DepResDeploy where
  download : List Char
  update : List Char
  chunks : List DepResChunk
deriving DecidableEq, Repr

structure DepRes where
  id : List Char
  deployment : DepResDeploy
deriving DecidableEq, Repr

/-- The all-zero deployment document (`memset(&hawkbit_results.dep, 0, ...)`). -/
def zeroDepRes : DepRes := ⟨[], ⟨[], [], []⟩⟩

/-! ## Descriptor parsing helpers (hawkbit.c lines 302-561) -/

/-- hawkbit_time2sec, hawkbit.c line 302: `strtol` at offsets 0, 3 and 6 of
the `HH:MM:SS` string, combined as seconds; `-1` flags a negative result.
The C `int` arithmetic is modelled over the integers (all exercised inputs
stay within int range). -/
def hawkbit_time2sec (s : List Char) : Int :=
  let sec := strtol s * (60 * 60) + strtol (s.drop 3) * 60 + strtol (s.drop 6)
  if sec < 0 then -1 else sec

/-- hawkbit_update_sleep, hawkbit.c line 374: the new value of the
`uint32_t` global `poll_sleep`.  `sleep_time` is a `uint32_t`, so the `-1`
sentinel of `hawkbit_time2sec` wraps to 4294967295 before the `> 0` test.
`hawkbit_probe` guards the call with `sleep != NULL`, so the `none` branch
(a NULL `strlen` in C) is never reached from the orchestrator. -/
def hawkbit_update_sleep (res : CtlRes) (poll_sleep : Nat) : Nat :=
  match res.sleep with
  | none => poll_sleep
  | some sleep =>
    if sleep.length ≠ HAWKBIT_SLEEP_LENGTH then
      poll_sleep
    else
      let sleep_time : Nat := toUInt32n (hawkbit_time2sec sleep)
      if 0 < sleep_time ∧ poll_sleep ≠ (MSEC_PER_SEC * sleep_time) % UINT32_MOD then
        (sleep_time * MSEC_PER_SEC) % UINT32_MOD
      else
        poll_sleep

def cancelMarker : List Char := ("cancelAction/").toList

/-- Result of `hawkbit_find_cancelAction_base`: the function writes through
`cancel_base` and `hb_context.action_id` even on some error paths, and
`hawkbit_probe` never checks the return value, so the partially updated
outputs are part of the result.  `cancel_base` and `action_id` are
zero-initialized by the caller (`""` and `action_id0`). -/
structure CancelFind where
  cancel_base : List Char
  action_id : Int
  ret_ok : Bool
deriving DecidableEq, Repr

/-- hawkbit_find_cancelAction_base, hawkbit.c line 394.  The copy happens
before the `strtok` walk, so `cancel_base` is set even when the action id is
non-positive. -/
def hawkbit_find_cancelAction_base (res : CtlRes) (action_id0 : Int) : CancelFind :=
  match res.links.cancelAction with
  | none => ⟨[], action_id0, true⟩
  | some href =>
    match strstr cancelMarker href with
    | none => ⟨[], action_id0, false⟩
    | some helper =>
      if CANCEL_BASE_SIZE - 1 < helper.length then ⟨[], action_id0, false⟩
      else
        match strtokSlash helper with
        | [] => ⟨helper, action_id0, false⟩
        | [_] => ⟨helper, action_id0, false⟩
        | _ :: tok1 :: _ =>
          let aid := toInt32 (strtol tok1)
          ⟨helper, aid, decide (0 < aid)⟩

def deploymentMarker : List Char := ("deploymentBase/").toList

/-- hawkbit_find_deployment_base, hawkbit.c line 447.  An absent link yields
the empty suffix; a present link without the marker is `-EINVAL`; a suffix
longer than 49 bytes is `-ENOMEM`. -/
def hawkbit_find_deployment_base (res : CtlRes) : Except CErr (List Char) :=
  match res.links.deploymentBase with
  | none => .ok []
  | some href =>
    match strstr deploymentMarker href with
    | none => .error .EINVAL
    | some helper =>
      if DEPLOYMENT_BASE_SIZE - 1 < helper.length then .error .ENOMEM
      else .ok helper

def downloadMarker : List Char := ("/DEFAULT/controller/v1").toList

def bAppPart : List Char := ("bApp").toList

/-- hawkbit_parse_deployment, hawkbit.c line 483.  On success the triple is
(`*json_action_id`, `download_http`, `*file_size`).  The C function stores
`*json_action_id` before the chunk checks (line 502), but `hawkbit_probe`
reads `json_action_id` only after a successful parse, so packaging the
outputs in the success value is observationally faithful.  The artifact size
check compares `int` values (`SLOT1_SIZE` is a device-tree integer literal). -/
def hawkbit_parse_deployment (slot1_size : Int) (res : DepRes) :
    Except CErr (Int × List Char × Int) :=
  let action_id := toInt32 (strtol res.id)
  if action_id < 0 then .error .EINVAL
  else
    match res.deployment.chunks with
    | [chunk] =>
      if chunk.part ≠ bAppPart then .error .EINVAL
      else
        match chunk.artifacts with
        | [artifact] =>
          if slot1_size < artifact.size then .error .ENOSPC
          else
            match artifact.links.download_http with
            | none => .error .EINVAL
            | some href =>
              match strstr downloadMarker href with
              | none => .error .EINVAL
              | some helper =>
                if helper.length = 0 then .error .EINVAL
                else if DOWNLOAD_HTTP_SIZE - 1 < helper.length then .error .ENOMEM
                else .ok (action_id, helper, artifact.size)
        | _ => .error .EINVAL
    | _ => .error .ENOSPC

/-- hawkbit_device_acid_update, hawkbit.c line 356: 0 on success, `-EIO`
(-5) when the NVS write fails.  `hawkbit_probe` ignores the return value. -/
def hawkbit_device_acid_update (nvs_write_ok : Bool) : Int :=
  if nvs_write_ok then 0 else -5

/-! ## The response callback (hawkbit.c line 665)

`response_cb` keeps two function-local statics, `body_len` and
`response_buffer_size`; both outlive the probe cycle and are threaded
through `Globals`.  The JSON-accumulating cases (`HAWKBIT_PROBE` and
`HAWKBIT_PROBE_DEPLOYMENT_BASE`) run the same code on different JSON
descriptors and are modelled once.  A body slice is the body payload of one
callback invocation; the model assumes the first delivered slice carries the
start of the body (`rsp->body_start` non-NULL), which is how the HTTP engine
delivers JSON documents. -/

structure JsonSlice where
  len : Nat
  final : Bool
  reallocOk : Bool
deriving DecidableEq, Repr

structure AccState where
  http_content_size : Nat
  body_len : Nat
  response_buffer_size : Nat
  metadata : Bool
  finalSeen : Bool
  aborted : Bool
deriving DecidableEq, Repr

/-- One JSON-accumulating invocation of `response_cb` (hawkbit.c lines
677-729 and 740-792).  On the first slice (`http_content_size == 0`) the
body length is taken over and the content size latched; later non-final
slices accumulate, doubling `response_buffer_size` when the accumulated
length overflows it (a failed `realloc` records `HAWKBIT_METADATA_ERROR`
and closes the connection, aborting the run); the final slice compares the
accumulated length against the content size and parses, either mismatch or
a parse failure recording `HAWKBIT_METADATA_ERROR`, then resets `body_len`.
Data arriving in the final invocation itself is not accumulated (the C
condition is `body_data == NULL && final_data == HTTP_DATA_MORE`). -/
def accumStep (contentLength : Nat) (parseOk : Bool) (st : AccState) (sl : JsonSlice) : AccState :=
  if st.aborted then st
  else
    let first := st.http_content_size = 0
    let st1 :=
      if first then { st with body_len := sl.len, http_content_size := contentLength }
      else st
    let st2 :=
      if ¬ first ∧ ¬ sl.final = true then
        let bl := st1.body_len + sl.len
        if st1.response_buffer_size < bl then
          let rbs := st1.response_buffer_size * 2
          if sl.reallocOk then
            { st1 with body_len := bl, response_buffer_size := rbs }
          else
            { st1 with body_len := bl, response_buffer_size := rbs,
                       metadata := true, aborted := true }
        else { st1 with body_len := bl }
      else st1
    if st2.aborted then st2
    else if sl.final then
      { st2 with
          metadata := st2.metadata || decide (st2.http_content_size ≠ st2.body_len) || ! parseOk,
          finalSeen := true,
          body_len := 0 }
    else st2

/-- The whole accumulation run of one JSON request. -/
def runAccum (contentLength : Nat) (parseOk : Bool) (st0 : AccState)
    (slices : List JsonSlice) : AccState :=
  slices.foldl (accumStep contentLength parseOk) st0

/-- One `HAWKBIT_DOWNLOAD` invocation of `response_cb` (hawkbit.c lines
794-833), over the flash-streamer contract of the spec (`append` adds the
slice, `bytes_written` reports the total successfully appended).
`downloaded_size` mirrors `flash_img_bytes_written`.  Every invocation ends
with `downloaded = downloaded_size * 100 / http_content_size`; the divisor
of that division is recorded in `divisors`.  `download_progress` only moves
when the computed percentage exceeds it.  A failed flash append records
`HAWKBIT_DOWNLOAD_ERROR`.  When `rsp->body_start` is NULL on the first
slice the C code stores an unspecified `body_len`; that value is never read
before being reassigned, so the model keeps the previous value. -/
structure DlSlice where
  bodyStart : Option Nat
  dataLen : Nat
  bodyFound : Bool
  final : Bool
  writeOk : Bool
deriving DecidableEq, Repr

structure DlState where
  http_content_size : Nat
  body_len : Nat
  downloaded_size : Nat
  download_progress : Nat
  downloadError : Bool
  flashAppends : List Nat
  divisors : List Nat
deriving DecidableEq, Repr

def response_cb_download (contentLength : Nat) (st : DlState) (sl : DlSlice) : DlState :=
  let b1 :=
    if st.http_content_size = 0 then
      match sl.bodyStart with
      | some off =>
        (({ st with http_content_size := contentLength,
                    body_len := sl.dataLen - off } : DlState), true)
      | none =>
        (({ st with http_content_size := contentLength } : DlState), false)
    else (st, false)
  let st1 := b1.1
  let hasBody1 := b1.2
  let b2 :=
    if sl.bodyFound && ! hasBody1 then
      (({ st1 with body_len := sl.dataLen } : DlState), true)
    else (st1, hasBody1)
  let st2 := b2.1
  let hasBody := b2.2
  let st3 :=
    if hasBody then
      if sl.writeOk then
        { st2 with downloaded_size := st2.downloaded_size + st2.body_len,
                   flashAppends := st2.flashAppends ++ [st2.body_len] }
      else
        { st2 with downloadError := true,
                   flashAppends := st2.flashAppends ++ [st2.body_len] }
    else st2
  let downloaded := st3.downloaded_size * 100 / st3.http_content_size
  let st4 := { st3 with divisors := st3.divisors ++ [st3.http_content_size] }
  if st4.download_progress < downloaded then
    { st4 with download_progress := downloaded }
  else st4

/-- The download callback state at the start of a request
(`hb_context.dl` is zeroed; `body_len` carries the surviving static). -/
def dlInit (body_len0 : Nat) : DlState :=
  ⟨0, body_len0, 0, 0, false, [], []⟩

/-- The whole download run of one artifact request. -/
def runDownload (contentLength : Nat) (st0 : DlState) (slices : List DlSlice) : DlState :=
  slices.foldl (response_cb_download contentLength) st0

/-- The intermediate states after each slice of a download run. -/
def downloadTrace (contentLength : Nat) (st0 : DlState) : List DlSlice → List DlState
  | [] => []
  | sl :: rest =>
    let st1 := response_cb_download contentLength st0 sl
    st1 :: downloadTrace contentLength st1 rest

def okHttpStatus : List Char := ("OK").toList

/-- The `HAWKBIT_CLOSE` / `HAWKBIT_REPORT` / `HAWKBIT_CONFIG_DEVICE` case of
`response_cb` (hawkbit.c line 731): a status comparing below `"OK"` only
emits a log line; the callback state (`code_status`) is returned untouched
in both branches. -/
def response_cb_feedback (http_status : List Char) (code_status : HawkbitResponse) :
    HawkbitResponse :=
  if strcmp http_status okHttpStatus < 0 then code_status else code_status

/-! ## The orchestrator `hawkbit_probe` (hawkbit.c line 1011)

The mutable state that outlives one probe cycle consists of the `uint32_t`
global `poll_sleep`, the NVS record holding the persisted action id, and the
two `response_cb` statics `body_len` and `response_buffer_size`; everything
else (`hb_context`, `hawkbit_results`, the stack buffers) is zeroed at cycle
start or before use.  The `Env` record carries the results of every
external interaction of one cycle: bootloader queries, identity and
firmware-version lookups, socket setup, per-request transport success, the
delivered body slices, and the JSON decoding results.  Requests are
recorded in order as `SentRequest` values: the URL of each request is
determined by the request kind plus the recorded variable path component
(board name, device id and the fixed URL root are compile-time constants). -/

structure Globals where
  poll_sleep : Nat
  nvs_action_id : Int
  body_len : Nat
  response_buffer_size : Nat
deriving DecidableEq, Repr

inductive SentRequest
  | probe
  | close (action_id : Int) (finished : HawkbitStatusFini) (execution : HawkbitStatusExec)
  | configDevice (finished : HawkbitStatusFini) (execution : HawkbitStatusExec)
  | probeDeploymentBase (deployment_base : List Char)
  | report (action_id : Int) (finished : HawkbitStatusFini) (execution : HawkbitStatusExec)
  | download (download_http : List Char)
deriving DecidableEq, Repr

structure Effects where
  sent : List SentRequest
  flash_img_inits : Nat
  flashAppends : List Nat
  bootUpgradeAttempts : Nat
  nvsWrites : List Int
deriving DecidableEq, Repr

def noEffects : Effects := ⟨[], 0, [], 0, []⟩

/-- Transport view of one JSON (GET) request: whether `http_client_req`
returned non-negative, the Content-Length of the response, and the body
slices delivered to the callback while the request ran. -/
structure JsonReqEnv where
  send_ok : Bool
  contentLength : Nat
  slices : List JsonSlice
deriving DecidableEq, Repr

structure Env where
  slot1_size : Int
  boot_img_confirmed : Bool
  firmware_version_ok : Bool
  device_identity_ok : Bool
  http_client_ok : Bool
  probe_req : JsonReqEnv
  base_doc : Option CtlRes
  close_send_ok : Bool
  close_http_status : List Char
  config_send_ok : Bool
  config_http_status : List Char
  dep_req : JsonReqEnv
  dep_doc : Option DepRes
  report_send_ok : Bool
  report_http_status : List Char
  download_send_ok : Bool
  download_contentLength : Nat
  download_slices : List DlSlice
  boot_request_upgrade_ok : Bool
  nvs_write_ok : Bool
deriving DecidableEq, Repr

structure ProbeResult where
  outcome : HawkbitResponse
  g : Globals
  eff : Effects
deriving DecidableEq, Repr

/-- The deployment phase of `hawkbit_probe` (hawkbit.c lines 1119-1219):
deployment-base extraction, descriptor fetch and parse, the persisted
action-id comparison, the download, bootloader arming and the NVS write.
`base` is the decoded control document, `g2` the globals after the polling
phase, `effIn` the effects recorded so far. -/
def probe_deploy_phase (env : Env) (base : CtlRes) (g2 : Globals) (effIn : Effects) :
    ProbeResult :=
  match hawkbit_find_deployment_base base with
  | .error _ => { outcome := .metadataError, g := g2, eff := effIn }
  | .ok deployment_base =>
    if deployment_base.length = 0 then { outcome := .noUpdate, g := g2, eff := effIn }
    else
      let acc0 : AccState :=
        { http_content_size := 0, body_len := g2.body_len,
          response_buffer_size := g2.response_buffer_size,
          metadata := false, finalSeen := false, aborted := false }
      let acc := runAccum env.dep_req.contentLength env.dep_doc.isSome acc0 env.dep_req.slices
      let g3 : Globals :=
        { g2 with body_len := acc.body_len, response_buffer_size := acc.response_buffer_size }
      let eff2 := { effIn with sent := effIn.sent ++ [.probeDeploymentBase deployment_base] }
      if ¬ env.dep_req.send_ok = true then { outcome := .networkingError, g := g3, eff := eff2 }
      else if acc.metadata then { outcome := .metadataError, g := g3, eff := eff2 }
      else
        let dep := if acc.finalSeen then env.dep_doc.getD zeroDepRes else zeroDepRes
        match hawkbit_parse_deployment env.slot1_size dep with
        | .error _ =>
          { outcome := initialCodeStatus, g := g3, eff := eff2 }
        | .ok (json_action_id, download_http, _file_size) =>
          if g3.nvs_action_id = json_action_id then
            let eff3 :=
              { eff2 with sent := eff2.sent ++ [.report json_action_id .success .closed] }
            let _cb := response_cb_feedback env.report_http_status initialCodeStatus
            if ¬ env.report_send_ok = true then
              { outcome := .networkingError, g := g3, eff := eff3 }
            else { outcome := .ok, g := g3, eff := eff3 }
          else
            let dl := runDownload env.download_contentLength (dlInit g3.body_len)
              env.download_slices
            let g4 : Globals := { g3 with body_len := dl.body_len }
            let eff4 :=
              { eff2 with flash_img_inits := eff2.flash_img_inits + 1,
                          sent := eff2.sent ++ [.download download_http],
                          flashAppends := dl.flashAppends }
            if ¬ env.download_send_ok = true then
              { outcome := .networkingError, g := g4, eff := eff4 }
            else if dl.downloadError then
              { outcome := .downloadError, g := g4, eff := eff4 }
            else if ¬ env.boot_request_upgrade_ok = true then
              { outcome := .downloadError, g := g4,
                eff := { eff4 with bootUpgradeAttempts := eff4.bootUpgradeAttempts + 1 } }
            else
              let _ret := hawkbit_device_acid_update env.nvs_write_ok
              { outcome := .updateInstalled,
                g := { g4 with nvs_action_id :=
                         if env.nvs_write_ok then json_action_id else g4.nvs_action_id },
                eff := { eff4 with bootUpgradeAttempts := eff4.bootUpgradeAttempts + 1,
                                   nvsWrites := eff4.nvsWrites ++ [json_action_id] } }

/-- hawkbit_probe, hawkbit.c line 1011: one full cycle.  The preamble
failures return before any request; the polling phase runs the JSON
accumulator, applies the sleep update, and dispatches on the cancelAction /
configData links before entering the deployment phase.  A parse failure of
the deployment descriptor jumps to cleanup WITHOUT assigning
`hb_context.code_status` (lines 1155-1161), so that path returns the
zero-initialized status. -/
def hawkbit_probe (g : Globals) (env : Env) : ProbeResult :=
  if ¬ env.boot_img_confirmed = true then
    { outcome := .unconfirmedImage, g := g, eff := noEffects }
  else if ¬ env.firmware_version_ok = true then
    { outcome := .metadataError, g := g, eff := noEffects }
  else if ¬ env.device_identity_ok = true then
    { outcome := .metadataError, g := g, eff := noEffects }
  else if ¬ env.http_client_ok = true then
    { outcome := .networkingError, g := g, eff := noEffects }
  else
    let acc0 : AccState :=
      { http_content_size := 0, body_len := g.body_len,
        response_buffer_size := g.response_buffer_size,
        metadata := false, finalSeen := false, aborted := false }
    let acc := runAccum env.probe_req.contentLength env.base_doc.isSome acc0 env.probe_req.slices
    let g1 : Globals :=
      { g with body_len := acc.body_len, response_buffer_size := acc.response_buffer_size }
    let eff1 := { noEffects with sent := [SentRequest.probe] }
    if ¬ env.probe_req.send_ok = true then { outcome := .networkingError, g := g1, eff := eff1 }
    else if acc.metadata then { outcome := .metadataError, g := g1, eff := eff1 }
    else
      let base := if acc.finalSeen then env.base_doc.getD zeroCtlRes else zeroCtlRes
      let g2 : Globals :=
        { g1 with poll_sleep :=
            if base.sleep.isSome then hawkbit_update_sleep base g1.poll_sleep
            else g1.poll_sleep }
      match base.links.cancelAction with
      | some _ =>
        let fc := hawkbit_find_cancelAction_base base 0
        let eff2 := { eff1 with sent := eff1.sent ++ [.close fc.action_id .success .closed] }
        let _cb := response_cb_feedback env.close_http_status initialCodeStatus
        if ¬ env.close_send_ok = true then { outcome := .networkingError, g := g2, eff := eff2 }
        else { outcome := .cancelUpdate, g := g2, eff := eff2 }
      | none =>
        match base.links.configData with
        | some _ =>
          let eff3 := { eff1 with sent := eff1.sent ++ [.configDevice .success .closed] }
          let _cb := response_cb_feedback env.config_http_status initialCodeStatus
          if ¬ env.config_send_ok = true then
            { outcome := .networkingError, g := g2, eff := eff3 }
          else probe_deploy_phase env base g2 eff3
        | none => probe_deploy_phase env base g2 eff1

/-! ## Concrete cycle environments used by the scenario theorems -/

/-- Globals at a fresh boot: default poll interval (5 min), the spec "none"
sentinel for the persisted action id, and the initial values of the two
`response_cb` statics. -/
def freshGlobals : Globals := ⟨300000, -1, 0, 1100⟩

/-- A control document whose only link is a deploymentBase href. -/
def ctlWithDeployment : CtlRes :=
  ⟨none, ⟨some (("http://s/DEFAULT/controller/v1/d-x/deploymentBase/42").toList), none, none⟩⟩

/-- A deployment document with one `bApp` chunk holding one artifact of the
given size and a valid download-http href. -/
def mkDepRes (idStr : List Char) (sz : Int) : DepRes :=
  ⟨idStr, ⟨("forced").toList, ("forced").toList,
    [⟨bAppPart, ("1.0").toList, ("app").toList,
      [⟨("fw.bin").toList, ⟨("a1").toList, ("b2").toList, ("c3").toList⟩, sz,
        ⟨some (("http://s/DEFAULT/controller/v1/dl/42").toList), none⟩⟩]⟩]⟩⟩

/-- A cycle in which every external interaction succeeds, each JSON response
arrives as one final slice of the advertised length, and the server reports
no links: the no-update baseline that the other environments modify. -/
def baselineEnv : Env :=
  { slot1_size := 100000,
    boot_img_confirmed := true,
    firmware_version_ok := true,
    device_identity_ok := true,
    http_client_ok := true,
    probe_req := ⟨true, 60, [⟨60, true, true⟩]⟩,
    base_doc := some zeroCtlRes,
    close_send_ok := true, close_http_status := okHttpStatus,
    config_send_ok := true, config_http_status := okHttpStatus,
    dep_req := ⟨true, 80, [⟨80, true, true⟩]⟩,
    dep_doc := none,
    report_send_ok := true, report_http_status := okHttpStatus,
    download_send_ok := true, download_contentLength := 1024,
    download_slices := [⟨some 0, 1024, true, true, true⟩],
    boot_request_upgrade_ok := true, nvs_write_ok := true }

/-- A full fresh-install cycle: deployment id 42, artifact of 1024 bytes. -/
def installEnv : Env :=
  { baselineEnv with
      base_doc := some ctlWithDeployment,
      dep_doc := some (mkDepRes (("42").toList) 1024) }

/-- S6 shape: the alternate slot holds 1024 bytes and the artifact has 1025. -/
def oversizedEnv : Env :=
  { installEnv with slot1_size := 1024, dep_doc := some (mkDepRes (("10").toList) 1025) }

/-- A control document carrying a cancelAction href whose action id is 0
and a deploymentBase link (which cancel precedence ignores). -/
def cancelZeroCtl : CtlRes :=
  ⟨none, ⟨some (("http://s/DEFAULT/controller/v1/d-x/deploymentBase/7").toList),
          some (("http://s/DEFAULT/controller/v1/d-x/cancelAction/0").toList), none⟩⟩

def cancelZeroEnv : Env := { baselineEnv with base_doc := some cancelZeroCtl }

/-- A deployment whose id string parses to 0. -/
def depZeroEnv : Env :=
  { installEnv with dep_doc := some (mkDepRes (("0").toList) 1024) }

/-- A deployment whose id string parses to -5. -/
def depNegEnv : Env :=
  { installEnv with dep_doc := some (mkDepRes (("-5").toList) 1024) }

/-- A polling response of 1200 body bytes delivered as 600+600+final-0:
the second slice overflows the 1100-byte buffer and doubles the capacity. -/
def growBufferEnv : Env :=
  { baselineEnv with
      probe_req := ⟨true, 1200, [⟨600, false, true⟩, ⟨600, false, true⟩, ⟨0, true, true⟩]⟩ }

/-- The same 1200-byte polling response, but the `realloc` that the
doubling needs fails. -/
def growBufferReallocFailEnv : Env :=
  { baselineEnv with
      probe_req := ⟨true, 1200, [⟨600, false, true⟩, ⟨600, false, false⟩, ⟨0, true, true⟩]⟩ }

/-- An install cycle in which the download response advertises 100 bytes of
content but delivers a single final slice of only 50 bytes. -/
def shortDownloadEnv : Env :=
  { installEnv with
      download_contentLength := 100,
      download_slices := [⟨some 0, 50, true, true, true⟩] }

/-! ## Claim theorems -/

deriving instance DecidableEq for Except

/-- C1: the claim says a deployment whose single artifact exceeds the
alternate slot size makes `hawkbit_probe` return DownloadError with no
flash write and no `boot_request_upgrade`.  The no-write and no-arming
parts hold, but `hawkbit_parse_deployment` returns `-ENOSPC` and the
orchestrator branch that receives it (hawkbit.c lines 1158-1161) jumps to
cleanup without assigning `hb_context.code_status`, so the probe returns the
zero-initialized status — which is not DownloadError — evaluated here on an
artifact one byte larger than the slot. -/
theorem hawkbit_probe_oversized_artifact_status :
    hawkbit_parse_deployment oversizedEnv.slot1_size (mkDepRes (("10").toList) 1025)
        = .error .ENOSPC
    ∧ (hawkbit_probe freshGlobals oversizedEnv).outcome = initialCodeStatus
    ∧ (hawkbit_probe freshGlobals oversizedEnv).outcome ≠ .downloadError
    ∧ (hawkbit_probe freshGlobals oversizedEnv).eff.flashAppends = []
    ∧ (hawkbit_probe freshGlobals oversizedEnv).eff.flash_img_inits = 0
    ∧ (hawkbit_probe freshGlobals oversizedEnv).eff.bootUpgradeAttempts = 0 := by
  decide

/-- C2: the claim says any non-positive action id (cancelAction second path
token ≤ 0, or deployment id ≤ 0) makes `hawkbit_probe` return MetadataError.
The code does not: the `-EINVAL` of `hawkbit_find_cancelAction_base` for id
0 is ignored (hawkbit.c line 1079), so the cycle still ends in CancelUpdate;
a deployment id of 0 passes the `< 0` check and is installed; a negative
deployment id aborts the parse but the branch never assigns `code_status`,
returning the zero-initialized status. -/
theorem hawkbit_probe_nonpositive_action_id_status :
    (hawkbit_find_cancelAction_base cancelZeroCtl 0).ret_ok = false
    ∧ (hawkbit_probe freshGlobals cancelZeroEnv).outcome = .cancelUpdate
    ∧ (hawkbit_probe freshGlobals cancelZeroEnv).outcome ≠ .metadataError
    ∧ (hawkbit_probe freshGlobals depZeroEnv).outcome = .updateInstalled
    ∧ (hawkbit_probe freshGlobals depZeroEnv).outcome ≠ .metadataError
    ∧ (hawkbit_probe freshGlobals depZeroEnv).eff.nvsWrites = [0]
    ∧ (hawkbit_probe freshGlobals depNegEnv).outcome = initialCodeStatus
    ∧ (hawkbit_probe freshGlobals depNegEnv).outcome ≠ .metadataError := by
  decide

/-- C3 counterexample: the claim says nothing but the persisted ActionId and
the PollInterval survives into the next cycle.  A first cycle that merely
needs a larger response buffer leaves the persisted id and the poll interval
untouched, yet a second, identical cycle behaves differently after it than
from a fresh boot (NoUpdate versus MetadataError), because the doubled
static `response_buffer_size` survives and is read by the overflow check of
the next cycle. -/
theorem hawkbit_probe_buffer_capacity_survives :
    (hawkbit_probe freshGlobals growBufferEnv).g.nvs_action_id = freshGlobals.nvs_action_id
    ∧ (hawkbit_probe freshGlobals growBufferEnv).g.poll_sleep = freshGlobals.poll_sleep
    ∧ (hawkbit_probe freshGlobals growBufferEnv).g.response_buffer_size = 2200
    ∧ (hawkbit_probe (hawkbit_probe freshGlobals growBufferEnv).g
          growBufferReallocFailEnv).outcome = .noUpdate
    ∧ (hawkbit_probe freshGlobals growBufferReallocFailEnv).outcome = .metadataError := by
  decide

/-- C4: the claim says a sleep string decoding to s ≤ 0 leaves the
PollInterval unchanged.  For the 8-character string "-1:00:00" the decode is
-3600 ≤ 0, `hawkbit_time2sec` returns the -1 sentinel, but the sentinel is
assigned to the `uint32_t` `sleep_time`, wraps to 4294967295, passes the
`> 0` test, and the PollInterval changes to (4294967295 * 1000) mod 2^32 =
4294966296 ms. -/
theorem hawkbit_update_sleep_negative_decode_changes_poll :
    3600 * strtol (("-1:00:00").toList)
        + 60 * strtol ((("-1:00:00").toList).drop 3)
        + strtol ((("-1:00:00").toList).drop 6) = -3600
    ∧ hawkbit_time2sec (("-1:00:00").toList) = -1
    ∧ hawkbit_update_sleep ⟨some (("-1:00:00").toList), ⟨none, none, none⟩⟩ 300000
        = 4294966296
    ∧ hawkbit_update_sleep ⟨some (("-1:00:00").toList), ⟨none, none, none⟩⟩ 300000
        ≠ 300000 := by
  decide

/-! ## Helper lemmas about the download callback -/

theorem div_progress_helper (p d d2 c : Nat) (hp : p = d * 100 / c) (hd : d ≤ d2) :
    (if p < d2 * 100 / c then d2 * 100 / c else p) = d2 * 100 / c
    ∧ p ≤ (if p < d2 * 100 / c then d2 * 100 / c else p) := by
  have h1 : d * 100 / c ≤ d2 * 100 / c :=
    Nat.div_le_div_right (Nat.mul_le_mul_right 100 hd)
  subst hp
  constructor
  · split <;> omega
  · split <;> omega

set_option maxHeartbeats 1000000 in
theorem response_cb_download_step (c : Nat) (st : DlState) (sl : DlSlice) :
    (response_cb_download c st sl).http_content_size
        = (if st.http_content_size = 0 then c else st.http_content_size)
    ∧ (response_cb_download c st sl).divisors
        = st.divisors ++ [if st.http_content_size = 0 then c else st.http_content_size]
    ∧ st.downloaded_size ≤ (response_cb_download c st sl).downloaded_size
    ∧ (response_cb_download c st sl).download_progress
        = (if st.download_progress <
              (response_cb_download c st sl).downloaded_size * 100 /
                (if st.http_content_size = 0 then c else st.http_content_size)
            then (response_cb_download c st sl).downloaded_size * 100 /
                (if st.http_content_size = 0 then c else st.http_content_size)
            else st.download_progress) := by
  unfold response_cb_download
  dsimp only
  by_cases h0 : st.http_content_size = 0
  · rcases hbs : sl.bodyStart with _ | off
    · simp only [h0, hbs, if_true, ite_true]
      repeat' split <;> simp_all
    · simp only [h0, hbs, if_true, ite_true]
      repeat' split <;> simp_all
  · simp only [h0, if_false, ite_false]
    rcases hbs : sl.bodyStart with _ | off
    · repeat' split <;> simp_all
    · repeat' split <;> simp_all

set_option maxHeartbeats 1000000 in
theorem response_cb_download_step_error (c : Nat) (st : DlState) (sl : DlSlice)
    (he : st.downloadError = false) (hw : sl.writeOk = true) :
    (response_cb_download c st sl).downloadError = false := by
  unfold response_cb_download
  dsimp only
  repeat' split <;> simp_all

theorem content_fix (c : Nat) (st : DlState)
    (h1 : st.http_content_size = 0 ∨ st.http_content_size = c) :
    (if st.http_content_size = 0 then c else st.http_content_size) = c := by
  rcases h1 with h | h <;> simp [h]

theorem runDownload_inv (c : Nat) :
    ∀ (slices : List DlSlice) (st : DlState),
      (st.http_content_size = 0 ∨ st.http_content_size = c) →
      st.download_progress = st.downloaded_size * 100 / c →
      (((runDownload c st slices).http_content_size = 0 ∨
          (runDownload c st slices).http_content_size = c)
       ∧ (runDownload c st slices).download_progress
           = (runDownload c st slices).downloaded_size * 100 / c
       ∧ st.downloaded_size ≤ (runDownload c st slices).downloaded_size
       ∧ st.download_progress ≤ (runDownload c st slices).download_progress)
  | [], st, h1, h2 => ⟨h1, h2, le_refl _, le_refl _⟩
  | sl :: rest, st, h1, h2 => by
    have hs := response_cb_download_step c st sl
    rw [content_fix c st h1] at hs
    have hp := div_progress_helper st.download_progress st.downloaded_size
      (response_cb_download c st sl).downloaded_size c h2 hs.2.2.1
    have hprog : (response_cb_download c st sl).download_progress
        = (response_cb_download c st sl).downloaded_size * 100 / c := by
      rw [hs.2.2.2]; exact hp.1
    have hle : st.download_progress ≤ (response_cb_download c st sl).download_progress := by
      rw [hs.2.2.2]; exact hp.2
    have ih := runDownload_inv c rest (response_cb_download c st sl) (Or.inr hs.1) hprog
    exact ⟨ih.1, ih.2.1, le_trans hs.2.2.1 ih.2.2.1, le_trans hle ih.2.2.2⟩

theorem runDownload_no_error (c : Nat) :
    ∀ (slices : List DlSlice) (st : DlState),
      st.downloadError = false → (∀ sl ∈ slices, sl.writeOk = true) →
      (runDownload c st slices).downloadError = false
  | [], _, he, _ => he
  | sl :: rest, st, he, hw => by
    have h1 := response_cb_download_step_error c st sl he (hw sl (by simp))
    exact runDownload_no_error c rest _ h1 (fun s hs => hw s (by simp [hs]))

theorem runDownload_divisors (c : Nat) :
    ∀ (slices : List DlSlice) (st : DlState),
      (st.http_content_size = 0 ∨ st.http_content_size = c) →
      (∀ d ∈ st.divisors, d = c) →
      ∀ d ∈ (runDownload c st slices).divisors, d = c
  | [], _, _, h2 => h2
  | sl :: rest, st, h1, h2 => by
    have hs := response_cb_download_step c st sl
    rw [content_fix c st h1] at hs
    refine runDownload_divisors c rest _ (Or.inr hs.1) ?_
    intro d hd
    rw [hs.2.1] at hd
    rcases List.mem_append.1 hd with hmem | hmem
    · exact h2 d hmem
    · simpa using hmem

theorem downloadTrace_mem (c : Nat) :
    ∀ (slices : List DlSlice) (st0 : DlState),
      (st0.http_content_size = 0 ∨ st0.http_content_size = c) →
      st0.download_progress = st0.downloaded_size * 100 / c →
      ∀ st ∈ downloadTrace c st0 slices,
        st.download_progress = st.downloaded_size * 100 / c
        ∧ st.downloaded_size ≤ (runDownload c st0 slices).downloaded_size
  | [], _, _, _ => by intro st hst; simp [downloadTrace] at hst
  | sl :: rest, st0, h1, h2 => by
    have hs := response_cb_download_step c st0 sl
    rw [content_fix c st0 h1] at hs
    have hp := div_progress_helper st0.download_progress st0.downloaded_size
      (response_cb_download c st0 sl).downloaded_size c h2 hs.2.2.1
    have hprog : (response_cb_download c st0 sl).download_progress
        = (response_cb_download c st0 sl).downloaded_size * 100 / c := by
      rw [hs.2.2.2]; exact hp.1
    intro st hst
    rcases (by simpa [downloadTrace] using hst :
        st = response_cb_download c st0 sl
          ∨ st ∈ downloadTrace c (response_cb_download c st0 sl) rest)
      with rfl | hmem
    · refine ⟨hprog, ?_⟩
      exact (runDownload_inv c rest (response_cb_download c st0 sl)
        (Or.inr hs.1) hprog).2.2.1
    · exact downloadTrace_mem c rest (response_cb_download c st0 sl)
        (Or.inr hs.1) hprog st hmem

theorem downloadTrace_chain (c : Nat) :
    ∀ (slices : List DlSlice) (st0 : DlState),
      (st0.http_content_size = 0 ∨ st0.http_content_size = c) →
      st0.download_progress = st0.downloaded_size * 100 / c →
      List.Chain' (fun a b => a ≤ b)
        (st0.download_progress ::
          (downloadTrace c st0 slices).map (fun st => st.download_progress))
  | [], _, _, _ => by simp [downloadTrace]
  | sl :: rest, st0, h1, h2 => by
    have hs := response_cb_download_step c st0 sl
    rw [content_fix c st0 h1] at hs
    have hp := div_progress_helper st0.download_progress st0.downloaded_size
      (response_cb_download c st0 sl).downloaded_size c h2 hs.2.2.1
    have hprog : (response_cb_download c st0 sl).download_progress
        = (response_cb_download c st0 sl).downloaded_size * 100 / c := by
      rw [hs.2.2.2]; exact hp.1
    have hle : st0.download_progress ≤ (response_cb_download c st0 sl).download_progress := by
      rw [hs.2.2.2]; exact hp.2
    have ih := downloadTrace_chain c rest (response_cb_download c st0 sl)
      (Or.inr hs.1) hprog
    simp only [downloadTrace, List.map_cons]
    rw [List.chain'_cons]
    exact ⟨hle, ih⟩

/-- C7 counterexample: the claim says that on the final slice
`downloaded_size` equals `http_content_size` or else the outcome is
MetadataError.  The download case of `response_cb` performs no such check:
a download advertising 100 bytes that delivers a single final slice of 50
bytes completes the cycle as UpdateInstalled. -/
theorem hawkbit_probe_short_download_not_flagged :
    (runDownload 100 (dlInit 0) [⟨some 0, 50, true, true, true⟩]).downloaded_size = 50
    ∧ shortDownloadEnv.download_contentLength = 100
    ∧ (hawkbit_probe freshGlobals shortDownloadEnv).eff.flashAppends = [50]
    ∧ (hawkbit_probe freshGlobals shortDownloadEnv).outcome = .updateInstalled
    ∧ (hawkbit_probe freshGlobals shortDownloadEnv).outcome ≠ .metadataError := by
  decide

/-- C7 amended: across every download run whose response carries a positive
Content-Length and delivers at most Content-Length bytes in total, after
every slice `download_progress` equals
`downloaded_size * 100 / http_content_size`, never exceeds 100, and is
non-decreasing over the run; and the download callback flags no error when
every flash append succeeds — in particular it performs no final-slice
length check, so a short download is not reported (see the counterexample
theorem for the dropped MetadataError clause of the original claim). -/
theorem response_cb_download_progress_invariants (c : Nat) (slices : List DlSlice)
    (hc : 0 < c)
    (hle : (runDownload c (dlInit 0) slices).downloaded_size ≤ c) :
    (∀ st ∈ downloadTrace c (dlInit 0) slices,
        st.download_progress = st.downloaded_size * 100 / c
        ∧ st.downloaded_size ≤ c
        ∧ st.download_progress ≤ 100)
    ∧ List.Chain' (fun a b => a ≤ b)
        ((downloadTrace c (dlInit 0) slices).map (fun st => st.download_progress))
    ∧ ((∀ sl ∈ slices, sl.writeOk = true) →
        (runDownload c (dlInit 0) slices).downloadError = false) := by
  have h1 : (dlInit 0).http_content_size = 0 ∨ (dlInit 0).http_content_size = c :=
    Or.inl rfl
  have h2 : (dlInit 0).download_progress = (dlInit 0).downloaded_size * 100 / c := by
    simp [dlInit]
  refine ⟨?_, ?_, ?_⟩
  · intro st hst
    have hm := downloadTrace_mem c slices (dlInit 0) h1 h2 st hst
    have hdc : st.downloaded_size ≤ c := le_trans hm.2 hle
    refine ⟨hm.1, hdc, ?_⟩
    rw [hm.1]
    calc st.downloaded_size * 100 / c ≤ c * 100 / c :=
          Nat.div_le_div_right (Nat.mul_le_mul_right 100 hdc)
      _ = 100 := Nat.mul_div_cancel_left 100 hc
  · exact (downloadTrace_chain c slices (dlInit 0) h1 h2).tail
  · intro hw
    exact runDownload_no_error c slices (dlInit 0) rfl hw

/-- A download of 200 bytes delivered as two 100-byte slices. -/
def twoSliceDownload : List DlSlice :=
  [⟨some 0, 100, true, false, true⟩, ⟨none, 100, true, true, true⟩]

/-- Witness for the amended C7 theorem at a concrete two-slice download. -/
theorem response_cb_download_progress_invariants_witness :
    (∀ st ∈ downloadTrace 200 (dlInit 0) twoSliceDownload,
        st.download_progress = st.downloaded_size * 100 / 200
        ∧ st.downloaded_size ≤ 200
        ∧ st.download_progress ≤ 100)
    ∧ List.Chain' (fun a b => a ≤ b)
        ((downloadTrace 200 (dlInit 0) twoSliceDownload).map
          (fun st => st.download_progress))
    ∧ ((∀ sl ∈ twoSliceDownload, sl.writeOk = true) →
        (runDownload 200 (dlInit 0) twoSliceDownload).downloadError = false) :=
  response_cb_download_progress_invariants 200 twoSliceDownload (by decide) (by decide)

/-- C10: in the download callback the division
`downloaded_size * 100 / http_content_size` executes once per invocation;
when the response carries a positive Content-Length, every recorded divisor
is positive (the first invocation latches `http_content_size` before the
division and it never returns to zero during the run). -/
theorem response_cb_download_division_safe (c bl : Nat) (slices : List DlSlice)
    (hc : 0 < c) :
    ∀ d ∈ (runDownload c (dlInit bl) slices).divisors, 0 < d := by
  intro d hd
  have h := runDownload_divisors c slices (dlInit bl) (Or.inl rfl) (by simp [dlInit]) d hd
  omega

/-- Witness for the C10 theorem at a concrete one-slice download. -/
theorem response_cb_download_division_safe_witness :
    (0 < 4)
    ∧ ∀ d ∈ (runDownload 4 (dlInit 0) [⟨some 0, 4, true, true, true⟩]).divisors, 0 < d :=
  ⟨by decide, response_cb_download_division_safe 4 0 [⟨some 0, 4, true, true, true⟩] (by decide)⟩

/-! ## Helper lemmas for the persisted-action-id bookkeeping -/

set_option maxHeartbeats 1000000 in
theorem probe_deploy_phase_nvs (env : Env) (base : CtlRes) (g2 : Globals) (eff : Effects)
    (b : Bool) (h : eff.nvsWrites = []) :
    ((probe_deploy_phase env base g2 eff).outcome = .updateInstalled ↔
      (probe_deploy_phase env base g2 eff).eff.nvsWrites.length = 1)
    ∧ (probe_deploy_phase env base g2 eff).eff.nvsWrites.length ≤ 1
    ∧ (probe_deploy_phase { env with nvs_write_ok := b } base g2 eff).outcome
        = (probe_deploy_phase env base g2 eff).outcome := by
  unfold probe_deploy_phase
  dsimp only
  rcases hfind : hawkbit_find_deployment_base base with e | db
  · simp [h]
  · by_cases hlen : db.length = 0
    · simp [hlen, h]
    · simp only [hlen, ite_false, if_false, if_neg]
      generalize runAccum env.dep_req.contentLength env.dep_doc.isSome
        { http_content_size := 0, body_len := g2.body_len,
          response_buffer_size := g2.response_buffer_size, metadata := false,
          finalSeen := false, aborted := false } env.dep_req.slices = acc
      by_cases hsend : env.dep_req.send_ok = true
      · by_cases hmeta : acc.metadata = true
        · simp [hsend, hmeta, h]
        · rcases hparse : hawkbit_parse_deployment env.slot1_size
              (if acc.finalSeen = true then env.dep_doc.getD zeroDepRes else zeroDepRes)
            with e2 | ⟨aid, dlp, fsz⟩
          · simp [hsend, hmeta, hparse, h, initialCodeStatus]
          · by_cases hnv : g2.nvs_action_id = aid
            · by_cases hrep : env.report_send_ok = true
              · simp [hsend, hmeta, hparse, hnv, hrep, h]
              · simp [hsend, hmeta, hparse, hnv, hrep, h]
            · by_cases hdl : env.download_send_ok = true
              · by_cases herr : (runDownload env.download_contentLength
                    (dlInit acc.body_len) env.download_slices).downloadError = true
                · simp [hsend, hmeta, hparse, hnv, hdl, herr, h]
                · by_cases hboot : env.boot_request_upgrade_ok = true
                  · simp [hsend, hmeta, hparse, hnv, hdl, herr, hboot, h]
                  · simp [hsend, hmeta, hparse, hnv, hdl, herr, hboot, h]
              · simp [hsend, hmeta, hparse, hnv, hdl, h]
      · simp [hsend, h]

set_option maxHeartbeats 1000000 in
theorem hawkbit_probe_nvs_aux (g : Globals) (env : Env) (b : Bool) :
    ((hawkbit_probe g env).outcome = .updateInstalled ↔
      (hawkbit_probe g env).eff.nvsWrites.length = 1)
    ∧ (hawkbit_probe g env).eff.nvsWrites.length ≤ 1
    ∧ (hawkbit_probe g { env with nvs_write_ok := b }).outcome
        = (hawkbit_probe g env).outcome := by
  unfold hawkbit_probe
  dsimp only
  by_cases h1 : env.boot_img_confirmed = true
  · by_cases h2 : env.firmware_version_ok = true
    · by_cases h3 : env.device_identity_ok = true
      · by_cases h4 : env.http_client_ok = true
        · simp only [h1, h2, h3, h4]
          generalize runAccum env.probe_req.contentLength env.base_doc.isSome
            { http_content_size := 0, body_len := g.body_len,
              response_buffer_size := g.response_buffer_size, metadata := false,
              finalSeen := false, aborted := false } env.probe_req.slices = acc
          by_cases h5 : env.probe_req.send_ok = true
          · by_cases h6 : acc.metadata = true
            · simp [h5, h6, noEffects]
            · simp only [h5, h6, not_true, ite_false, if_false, Bool.not_eq_true,
                if_neg, if_true, ite_true, not_false_iff]
              generalize hbase : (if acc.finalSeen = true
                  then env.base_doc.getD zeroCtlRes else zeroCtlRes) = base
              rcases hca : base.links.cancelAction with _ | ca
              · rcases hcf : base.links.configData with _ | cf
                · simp only [hca, hcf]
                  exact probe_deploy_phase_nvs env base _ _ b rfl
                · simp only [hca, hcf]
                  by_cases h7 : env.config_send_ok = true
                  · simp only [h7, not_true, ite_false, if_false, if_neg, not_false_iff]
                    exact probe_deploy_phase_nvs env base _ _ b rfl
                  · simp [h7, noEffects]
              · by_cases h8 : env.close_send_ok = true
                · simp [hca, h8, noEffects]
                · simp [hca, h8, noEffects]
          · simp [h5, noEffects]
        · simp [h1, h2, h3, h4, noEffects]
      · simp [h1, h2, h3, noEffects]
    · simp [h1, h2, noEffects]
  · simp [h1, noEffects]

/-- C8: the persisted action id is written exactly once in a cycle whose
outcome is UpdateInstalled (the write follows the successful
`boot_request_upgrade`) and never otherwise; a failed write surfaces `-EIO`
from `hawkbit_device_acid_update` but does not change the outcome: the
probe still returns UpdateInstalled. -/
theorem hawkbit_probe_acid_write_iff_installed (g : Globals) (env : Env) :
    ((hawkbit_probe g env).outcome = .updateInstalled ↔
      (hawkbit_probe g env).eff.nvsWrites.length = 1)
    ∧ (hawkbit_probe g env).eff.nvsWrites.length ≤ 1
    ∧ hawkbit_device_acid_update false = -5
    ∧ ∀ b : Bool,
        (hawkbit_probe g { env with nvs_write_ok := b }).outcome
          = (hawkbit_probe g env).outcome :=
  ⟨(hawkbit_probe_nvs_aux g env true).1, (hawkbit_probe_nvs_aux g env true).2.1,
   rfl, fun b => (hawkbit_probe_nvs_aux g env b).2.2⟩

/-- C9: the HTTP status of the cancel-feedback, install-feedback and
configData responses never influences the cycle: the feedback case of
`response_cb` is the identity on the callback status (a low status is only
logged), and `hawkbit_probe` yields the same result whatever status strings
those three responses carry. -/
theorem hawkbit_probe_feedback_status_irrelevant :
    (∀ (s : List Char) (c : HawkbitResponse), response_cb_feedback s c = c)
    ∧ ∀ (g : Globals) (env : Env) (s1 s2 s3 : List Char),
        hawkbit_probe g
            { env with close_http_status := s1, config_http_status := s2,
                       report_http_status := s3 }
          = hawkbit_probe g env := by
  constructor
  · intro s c
    unfold response_cb_feedback
    split <;> rfl
  · intro g env s1 s2 s3
    rfl

/-! ## Helper lemmas for the polling and deployment phases -/

/-- A JSON response delivered as a single final slice of the advertised
length accumulates cleanly: the content size is latched, `body_len` is reset
and the capacity untouched; the run flags metadata exactly when the JSON
parse fails. -/
theorem runAccum_single (c : Nat) (p : Bool) (bl rbs : Nat) :
    runAccum c p ⟨0, bl, rbs, false, false, false⟩ [⟨c, true, true⟩]
      = ⟨c, 0, rbs, ! p, true, false⟩ := by
  simp [runAccum, accumStep]

set_option maxHeartbeats 1000000 in
theorem probe_deploy_phase_report (env : Env) (base : CtlRes) (g2 : Globals) (eff : Effects)
    (dep : DepRes) (A : Int) (db dlp : List Char) (fsz : Int)
    (hfind : hawkbit_find_deployment_base base = .ok db)
    (hdb : ¬ db = [])
    (hdsend : env.dep_req.send_ok = true)
    (hdsl : env.dep_req.slices = [⟨env.dep_req.contentLength, true, true⟩])
    (hddoc : env.dep_doc = some dep)
    (hparse : hawkbit_parse_deployment env.slot1_size dep = .ok (A, dlp, fsz))
    (hrep : env.report_send_ok = true)
    (hnv : g2.nvs_action_id = A) :
    probe_deploy_phase env base g2 eff
      = { outcome := .ok, g := { g2 with body_len := 0 },
          eff := { eff with sent := eff.sent ++ [.probeDeploymentBase db]
                              ++ [.report A .success .closed] } } := by
  have hlen : ¬ db.length = 0 := by simpa using hdb
  unfold probe_deploy_phase
  dsimp only
  rw [hfind]
  dsimp only
  rw [if_neg hlen, hdsl, hddoc]
  rw [show (some dep).isSome = true from rfl]
  rw [runAccum_single]
  simp only [Bool.not_true, if_false, ite_false, Bool.false_eq_true, hdsend,
    not_true, Option.getD_some, ite_true, if_true]
  rw [hparse]
  dsimp only
  rw [hnv]
  simp only [if_pos rfl, hrep, not_true, ite_false, if_false, Bool.false_eq_true, if_true,
    ite_true]

/-- C5: in every cycle that reaches the deployment descriptor and whose
parsed action id equals the persisted one, the probe posts exactly one
install feedback (execution closed, finished success, addressed by the
action id, i.e. to the deployment feedback URL) and returns Ok, with no
flash initialization, no flash append, no `boot_request_upgrade`, and no
NVS write; the persisted id is unchanged, so for every globals state with
the same persisted id — in particular every later cycle against the
unchanged server — the behaviour repeats. -/
theorem hawkbit_probe_idempotent_install
    (env : Env) (base : CtlRes) (dep : DepRes) (A : Int) (db dlp : List Char) (fsz : Int)
    (hboot : env.boot_img_confirmed = true)
    (hfw : env.firmware_version_ok = true)
    (hdev : env.device_identity_ok = true)
    (hhttp : env.http_client_ok = true)
    (hpsend : env.probe_req.send_ok = true)
    (hpsl : env.probe_req.slices = [⟨env.probe_req.contentLength, true, true⟩])
    (hbdoc : env.base_doc = some base)
    (hcancel : base.links.cancelAction = none)
    (hconfig : base.links.configData = none ∨ env.config_send_ok = true)
    (hfind : hawkbit_find_deployment_base base = .ok db)
    (hdb : ¬ db = [])
    (hdsend : env.dep_req.send_ok = true)
    (hdsl : env.dep_req.slices = [⟨env.dep_req.contentLength, true, true⟩])
    (hddoc : env.dep_doc = some dep)
    (hparse : hawkbit_parse_deployment env.slot1_size dep = .ok (A, dlp, fsz))
    (hrep : env.report_send_ok = true) :
    ∀ g : Globals, g.nvs_action_id = A →
      (hawkbit_probe g env).outcome = .ok
      ∧ (hawkbit_probe g env).eff.sent
          = [SentRequest.probe]
            ++ (match base.links.configData with
                | none => []
                | some _ => [SentRequest.configDevice .success .closed])
            ++ [SentRequest.probeDeploymentBase db, SentRequest.report A .success .closed]
      ∧ (hawkbit_probe g env).eff.flashAppends = []
      ∧ (hawkbit_probe g env).eff.flash_img_inits = 0
      ∧ (hawkbit_probe g env).eff.bootUpgradeAttempts = 0
      ∧ (hawkbit_probe g env).eff.nvsWrites = []
      ∧ (hawkbit_probe g env).g.nvs_action_id = g.nvs_action_id := by
  intro g hg
  unfold hawkbit_probe
  dsimp only
  rw [hpsl, hbdoc]
  rw [show (some base).isSome = true from rfl]
  rw [runAccum_single]
  simp only [hboot, hfw, hdev, hhttp, hpsend, Bool.not_true, ite_true, if_true,
    Bool.not_eq_true, Option.getD_some]
  simp only [not_true, ite_false, if_false, Bool.false_eq_true, hcancel, noEffects]
  rcases hcf : base.links.configData with _ | cf
  · dsimp only
    rw [probe_deploy_phase_report env base
      { poll_sleep := if base.sleep.isSome = true
          then hawkbit_update_sleep base g.poll_sleep else g.poll_sleep,
        nvs_action_id := g.nvs_action_id, body_len := 0,
        response_buffer_size := g.response_buffer_size }
      { sent := [SentRequest.probe], flash_img_inits := 0, flashAppends := [],
        bootUpgradeAttempts := 0, nvsWrites := [] }
      dep A db dlp fsz hfind hdb hdsend hdsl hddoc hparse hrep hg]
    simp [hg]
  · have hcs : env.config_send_ok = true := by
      rcases hconfig with h | h
      · rw [hcf] at h; cases h
      · exact h
    dsimp only
    simp only [hcs, not_true, ite_false, if_false, Bool.false_eq_true]
    rw [probe_deploy_phase_report env base
      { poll_sleep := if base.sleep.isSome = true
          then hawkbit_update_sleep base g.poll_sleep else g.poll_sleep,
        nvs_action_id := g.nvs_action_id, body_len := 0,
        response_buffer_size := g.response_buffer_size }
      { sent := [SentRequest.probe] ++ [SentRequest.configDevice .success .closed],
        flash_img_inits := 0, flashAppends := [],
        bootUpgradeAttempts := 0, nvsWrites := [] }
      dep A db dlp fsz hfind hdb hdsend hdsl hddoc hparse hrep hg]
    simp [hg]

/-- Witness for C5: the fresh-install environment with the persisted id
already at 42 produces the Ok outcome with no flash or bootloader effect. -/
theorem hawkbit_probe_idempotent_install_witness :
    (hawkbit_probe ⟨300000, 42, 0, 1100⟩ installEnv).outcome = .ok
    ∧ (hawkbit_probe ⟨300000, 42, 0, 1100⟩ installEnv).eff.flashAppends = []
    ∧ (hawkbit_probe ⟨300000, 42, 0, 1100⟩ installEnv).eff.flash_img_inits = 0
    ∧ (hawkbit_probe ⟨300000, 42, 0, 1100⟩ installEnv).eff.bootUpgradeAttempts = 0
    ∧ (hawkbit_probe ⟨300000, 42, 0, 1100⟩ installEnv).eff.nvsWrites = []
    ∧ (hawkbit_probe ⟨300000, 42, 0, 1100⟩ installEnv).g.nvs_action_id = 42 := by
  have h := hawkbit_probe_idempotent_install installEnv ctlWithDeployment
    (mkDepRes (("42").toList) 1024) 42 (("deploymentBase/42").toList)
    (("/DEFAULT/controller/v1/dl/42").toList) 1024
    rfl rfl rfl rfl rfl (by decide) rfl rfl (Or.inl rfl) (by decide) (by decide)
    rfl (by decide) rfl (by decide) rfl ⟨300000, 42, 0, 1100⟩ rfl
  exact ⟨h.1, h.2.2.1, h.2.2.2.1, h.2.2.2.2.1, h.2.2.2.2.2.1, h.2.2.2.2.2.2⟩

/-- C6: when the control response carries both a cancelAction and a
deploymentBase link and the cancel feedback request goes through, the cycle
ends with CancelUpdate, having sent only the poll and the cancel feedback:
the deployment descriptor is never fetched and no download occurs. -/
theorem hawkbit_probe_cancel_precedence
    (env : Env) (base : CtlRes) (ca dbl : List Char)
    (hboot : env.boot_img_confirmed = true)
    (hfw : env.firmware_version_ok = true)
    (hdev : env.device_identity_ok = true)
    (hhttp : env.http_client_ok = true)
    (hpsend : env.probe_req.send_ok = true)
    (hpsl : env.probe_req.slices = [⟨env.probe_req.contentLength, true, true⟩])
    (hbdoc : env.base_doc = some base)
    (hca : base.links.cancelAction = some ca)
    (_hdbl : base.links.deploymentBase = some dbl)
    (hclose : env.close_send_ok = true) :
    ∀ g : Globals,
      (hawkbit_probe g env).outcome = .cancelUpdate
      ∧ (hawkbit_probe g env).eff.sent
          = [SentRequest.probe,
             SentRequest.close (hawkbit_find_cancelAction_base base 0).action_id
               .success .closed]
      ∧ (∀ s, SentRequest.probeDeploymentBase s ∉ (hawkbit_probe g env).eff.sent)
      ∧ (∀ s, SentRequest.download s ∉ (hawkbit_probe g env).eff.sent)
      ∧ (hawkbit_probe g env).eff.flashAppends = [] := by
  intro g
  unfold hawkbit_probe
  dsimp only
  rw [hpsl, hbdoc]
  rw [show (some base).isSome = true from rfl]
  rw [runAccum_single]
  simp only [hboot, hfw, hdev, hhttp, hpsend, Bool.not_true, ite_true, if_true,
    Bool.not_eq_true, Option.getD_some]
  simp only [not_true, ite_false, if_false, Bool.false_eq_true, hca, noEffects]
  simp [hclose]

/-- Witness for C6: the control response carrying both links ends the cycle
in CancelUpdate without any deployment fetch. -/
theorem hawkbit_probe_cancel_precedence_witness :
    (hawkbit_probe freshGlobals cancelZeroEnv).outcome = .cancelUpdate
    ∧ (∀ s, SentRequest.probeDeploymentBase s ∉ (hawkbit_probe freshGlobals cancelZeroEnv).eff.sent)
    ∧ (∀ s, SentRequest.download s ∉ (hawkbit_probe freshGlobals cancelZeroEnv).eff.sent)
    ∧ (hawkbit_probe freshGlobals cancelZeroEnv).eff.flashAppends = [] := by
  have h := hawkbit_probe_cancel_precedence cancelZeroEnv cancelZeroCtl
    (("http://s/DEFAULT/controller/v1/d-x/cancelAction/0").toList)
    (("http://s/DEFAULT/controller/v1/d-x/deploymentBase/7").toList)
    rfl rfl rfl rfl rfl (by decide) rfl rfl rfl rfl freshGlobals
  exact ⟨h.1, h.2.2.1, h.2.2.2.1, h.2.2.2.2⟩

/-! ## Helper lemmas for the cross-cycle state frame -/

theorem accumStep_fresh (c : Nat) (p : Bool) (rbs b1 b2 : Nat) (sl : JsonSlice) :
    accumStep c p ⟨0, b1, rbs, false, false, false⟩ sl
      = accumStep c p ⟨0, b2, rbs, false, false, false⟩ sl := rfl

theorem runAccum_fresh (c : Nat) (p : Bool) (rbs b1 b2 : Nat) (sl : JsonSlice)
    (rest : List JsonSlice) :
    runAccum c p ⟨0, b1, rbs, false, false, false⟩ (sl :: rest)
      = runAccum c p ⟨0, b2, rbs, false, false, false⟩ (sl :: rest) := by
  simp only [runAccum, List.foldl_cons]
  rw [accumStep_fresh c p rbs b1 b2 sl]

/-- C3 amended: the mutable agent state that survives one probe cycle into
the next is exactly the four `Globals` fields — the PollInterval, the
persisted ActionId, and the two `response_cb` statics `body_len` and
`response_buffer_size` (the probe is a function of exactly these four plus
the cycle environment); and of the two statics, `body_len` is benign: the
outcome, the effects, and the surviving poll interval, persisted id and
buffer capacity never depend on its incoming value (it is reassigned before
any read), whereas the surviving `response_buffer_size` is read by the next
cycle (see the counterexample theorem). -/
theorem hawkbit_probe_state_frame :
    (∀ (g g2 : Globals) (env : Env),
        g.poll_sleep = g2.poll_sleep → g.nvs_action_id = g2.nvs_action_id →
        g.body_len = g2.body_len → g.response_buffer_size = g2.response_buffer_size →
        hawkbit_probe g env = hawkbit_probe g2 env)
    ∧ (∀ (g : Globals) (env : Env) (b : Nat),
        (hawkbit_probe { g with body_len := b } env).outcome
            = (hawkbit_probe g env).outcome
        ∧ (hawkbit_probe { g with body_len := b } env).eff = (hawkbit_probe g env).eff
        ∧ (hawkbit_probe { g with body_len := b } env).g.poll_sleep
            = (hawkbit_probe g env).g.poll_sleep
        ∧ (hawkbit_probe { g with body_len := b } env).g.nvs_action_id
            = (hawkbit_probe g env).g.nvs_action_id
        ∧ (hawkbit_probe { g with body_len := b } env).g.response_buffer_size
            = (hawkbit_probe g env).g.response_buffer_size) := by
  constructor
  · intro g g2 env h1 h2 h3 h4
    obtain ⟨p1, n1, b1, r1⟩ := g
    obtain ⟨p2, n2, b2, r2⟩ := g2
    simp only at h1 h2 h3 h4
    subst h1; subst h2; subst h3; subst h4
    rfl
  · intro g env b
    obtain ⟨gp, gn, gbl, grbs⟩ := g
    rcases hsl : env.probe_req.slices with _ | ⟨sl, rest⟩
    · unfold hawkbit_probe probe_deploy_phase
      dsimp only
      rw [hsl]
      by_cases h1 : env.boot_img_confirmed = true
      · by_cases h5 : env.probe_req.send_ok = true
        · simp [h1, h5, runAccum, zeroCtlRes, hawkbit_find_deployment_base, noEffects]
          repeat' split <;> simp_all
        · simp [h1, h5, runAccum, zeroCtlRes, hawkbit_find_deployment_base, noEffects]
          repeat' split <;> simp_all
      · simp [h1]
    · unfold hawkbit_probe
      dsimp only
      rw [hsl]
      rw [runAccum_fresh env.probe_req.contentLength env.base_doc.isSome grbs b gbl sl rest]
      by_cases h1 : env.boot_img_confirmed = true
      · by_cases h2 : env.firmware_version_ok = true
        · by_cases h3 : env.device_identity_ok = true
          · by_cases h4 : env.http_client_ok = true
            · simp only [h1, h2, h3, h4, not_true, ite_false, if_false, Bool.false_eq_true,
                eq_self_iff_true]
              exact ⟨trivial, trivial, trivial, trivial, trivial⟩
            · simp [h1, h2, h3, h4]
          · simp [h1, h2, h3]
        · simp [h1, h2]
      · simp [h1]

end Hawkbit
